import Mathlib

/-!
Verification development for the defi-stake-yield-brownie repository slice.

The repository slice under analysis contains two Python files:
scripts/issue_tokens.py and tests/unit/test_token_farm.py.  They are
orchestration glue over a token-farm smart-contract system: the scripts pick
accounts, deploy contracts, invoke contract methods and assert on-chain state.

The development has two layers.

1. A chain model: the state owned by the external contracts (token farm,
   ERC-20 tokens, price feed) and the contract method surface the scripts
   invoke.  The contract source (TokenFarm.sol, the ERC-20 token, the mock
   price feed) and the helper scripts (helpful_scripts.py, deploy.py,
   conftest.py) are part of the repository but are not included in the
   provided slice, so those definitions are modelled from the spec: the
   method surface of section 6, the error model of section 7 (an on-chain
   requirement violation such as an unauthorized caller or an unapproved
   token surfaces as a generic failure signal, VirtualMachineError), and the
   behaviour the test assertions encode.

2. A syntactic embedding of the script functions themselves: each Python
   function is transliterated, statement by statement, into a list of steps
   (account lookup, deployment, contract call, assertion, expected revert,
   local-network guard, debug print, helper-function call).  Structural
   claims about the scripts (their method surface, their shape, the absence
   of module-level state) are settled against these step lists.
-/

/-- Account and contract addresses, modelled as naturals. -/
abbrev Address := Nat

/-- Modelled from the spec: the generic failure signal of the execution
environment (brownie raises VirtualMachineError when an on-chain requirement
is violated, e.g. unauthorized caller or unapproved token).  The scripts only
observe its presence or absence, so a single constructor suffices. -/
inductive VMError where
  | revert
  deriving DecidableEq, Repr

/-- Pointwise update of a function at one argument. -/
def updFn [DecidableEq α] (f : α → β) (a : α) (b : β) : α → β :=
  fun x => if x = a then b else f x

/-- Pointwise update of a curried two-argument function at one pair. -/
def updFn2 [DecidableEq α] [DecidableEq γ] (f : α → γ → β) (a : α) (g : γ) (b : β) :
    α → γ → β :=
  updFn f a (updFn (f a) g b)

/-- Modelled from the spec: the observable state of one ERC-20 token contract
(the dapp token and the random ERC-20 of the tests).  The token sources are
not in the provided slice; the scripts invoke balanceOf and approve on them
and the farm moves tokens through transfers. -/
structure Erc20 where
  balanceOf : Address → Nat
  allowance : Address → Address → Nat

/-- Modelled from the spec: the state of the external token farm contract
(section 3: token farm contract, price feed, staking balances; section 6:
its method surface).  TokenFarm.sol is not in the provided slice. -/
structure TokenFarm where
  owner : Address
  dappToken : Address
  allowedTokens : List Address
  tokenPriceFeedMapping : Address → Option Address
  stakingBalance : Address → Address → Nat
  uniqueTokensStaked : Address → Nat
  stakers : List Address

/-- Modelled from the spec: the whole on-chain state the scripts read and
write through remote calls: the farm, the ERC-20 token state at each token
address, and the price feeds (answer, decimals) at each feed address. -/
structure Chain where
  farm : TokenFarm
  tokens : Address → Erc20
  feeds : Address → Nat × Nat

def ownerAddr : Address := 1
def nonOwnerAddr : Address := 2
def farmAddr : Address := 3
def dappTokenAddr : Address := 4
def randomTokenAddr : Address := 5
def ethUsdFeedAddr : Address := 6

/-- Modelled from the spec: INITIAL_PRICE_FEED_VALUE of helpful_scripts.py
(not in the slice).  The tests fix it: getTokenValue returns it as the mock
price and a stake of 1 ether is valued at Web3.toWei(2000, ether). -/
def INITIAL_PRICE_FEED_VALUE : Nat := 2000 * 10 ^ 18

/-- Modelled from the spec: DECIMALS of helpful_scripts.py (not in the
slice); the decimals of the mock price feed. -/
def DECIMALS : Nat := 18

/-- Modelled from the spec: the dapp-token balance the deployer keeps after
deployment; the tests assert it is Web3.toWei(100, ether). -/
def KEPT_BALANCE : Nat := 100 * 10 ^ 18

/-- Modelled from the spec: the initial supply minted to the deployer of an
ERC-20 mock (deploy.py and conftest.py are not in the slice). -/
def initialSupply : Nat := 1000000 * 10 ^ 18

def zeroErc20 : Erc20 :=
  { balanceOf := fun _ => 0, allowance := fun _ _ => 0 }

/-- Modelled from the spec: the chain state produced by
deploy_token_farm_and_dapp_token() together with the random_erc20 fixture
(deploy.py and conftest.py are not in the slice).  The deployer keeps
KEPT_BALANCE dapp tokens and the farm holds the rest; the dapp token is on
the allowed list with the mock ETH/USD feed as its price feed; the random
ERC-20 is minted to the deployer and is not on the allowed list. -/
def deployedChain : Chain :=
  { farm :=
      { owner := ownerAddr
        dappToken := dappTokenAddr
        allowedTokens := [dappTokenAddr]
        tokenPriceFeedMapping := fun t =>
          if t = dappTokenAddr then some ethUsdFeedAddr else none
        stakingBalance := fun _ _ => 0
        uniqueTokensStaked := fun _ => 0
        stakers := ([] : List Address) }
    tokens := fun t =>
      if t = dappTokenAddr then
        { balanceOf := fun a =>
            if a = ownerAddr then KEPT_BALANCE
            else if a = farmAddr then initialSupply - KEPT_BALANCE
            else 0
          allowance := fun _ _ => 0 }
      else if t = randomTokenAddr then
        { balanceOf := fun a => if a = ownerAddr then initialSupply else 0
          allowance := fun _ _ => 0 }
      else zeroErc20
    feeds := fun f =>
      if f = ethUsdFeedAddr then (INITIAL_PRICE_FEED_VALUE, DECIMALS)
      else (0, 0) }

/-- Move amount token units from src to dst in a balance map (the deduction
happens before the credit, so a self-transfer is a no-op). -/
def moveBalance (f : Address → Nat) (src dst : Address) (amount : Nat) :
    Address → Nat :=
  let f1 := updFn f src (f src - amount)
  updFn f1 dst (f1 dst + amount)

/-- Modelled from the spec: ERC-20 approve — the caller sets the spender's
allowance on the given token. -/
def approve (c : Chain) (token sender spender : Address) (amount : Nat) : Chain :=
  let tk := c.tokens token
  let tk1 : Erc20 := { tk with allowance := updFn2 tk.allowance sender spender amount }
  { c with tokens := updFn c.tokens token tk1 }

/-- Modelled from the spec: ERC-20 transfer — fails with the generic failure
signal when the sender's balance is insufficient. -/
def erc20transfer (c : Chain) (token src dst : Address) (amount : Nat) :
    Except VMError Chain :=
  let tk := c.tokens token
  let tk1 : Erc20 := { tk with balanceOf := moveBalance tk.balanceOf src dst amount }
  if amount ≤ tk.balanceOf src then
    .ok { c with tokens := updFn c.tokens token tk1 }
  else .error .revert

/-- Modelled from the spec: ERC-20 transferFrom — fails with the generic
failure signal when the spender's allowance or the source balance is
insufficient; otherwise moves the tokens and consumes the allowance. -/
def erc20transferFrom (c : Chain) (token src spender dst : Address)
    (amount : Nat) : Except VMError Chain :=
  let tk := c.tokens token
  let tk1 : Erc20 :=
    { balanceOf := moveBalance tk.balanceOf src dst amount
      allowance := updFn2 tk.allowance src spender (tk.allowance src spender - amount) }
  if amount ≤ tk.allowance src spender ∧ amount ≤ tk.balanceOf src then
    .ok { c with tokens := updFn c.tokens token tk1 }
  else .error .revert

/-- Whether a token is on the farm's allowed list. -/
def tokenIsAllowed (f : TokenFarm) (token : Address) : Bool :=
  f.allowedTokens.contains token

/-- Modelled from the spec: addAllowedTokens — owner-only (an unauthorized
caller violates an on-chain requirement and the call fails with the generic
failure signal); the owner appends the token to the allowed list. -/
def addAllowedTokens (c : Chain) (token sender : Address) :
    Except VMError Chain :=
  let farm1 : TokenFarm :=
    { c.farm with allowedTokens := c.farm.allowedTokens ++ [token] }
  if sender = c.farm.owner then .ok { c with farm := farm1 }
  else .error .revert

/-- Modelled from the spec: setPriceFeedContract — owner-only; the owner maps
the token to its price feed contract. -/
def setPriceFeedContract (c : Chain) (token feed sender : Address) :
    Except VMError Chain :=
  let farm1 : TokenFarm :=
    { c.farm with
      tokenPriceFeedMapping := updFn c.farm.tokenPriceFeedMapping token (some feed) }
  if sender = c.farm.owner then .ok { c with farm := farm1 }
  else .error .revert

/-- Modelled from the spec: stakeTokens — staking an unapproved (not allowed)
token violates an on-chain requirement and fails with the generic failure
signal; otherwise the farm pulls the tokens via transferFrom (which needs the
caller's prior approval), updates the staker's recorded balance to the staked
amount, counts a first-time token as newly staked, and registers a first-time
staker in the stakers list — the behaviour the test assertions encode. -/
def stakeTokens (c : Chain) (amount : Nat) (token sender : Address) :
    Except VMError Chain :=
  if tokenIsAllowed c.farm token then
    match erc20transferFrom c token sender farmAddr farmAddr amount with
    | .error e => .error e
    | .ok c1 =>
      let oldBal := c1.farm.stakingBalance token sender
      let newUnique :=
        if oldBal = 0 then c1.farm.uniqueTokensStaked sender + 1
        else c1.farm.uniqueTokensStaked sender
      let farm1 : TokenFarm :=
        { c1.farm with
          stakingBalance := updFn2 c1.farm.stakingBalance token sender amount
          uniqueTokensStaked := updFn c1.farm.uniqueTokensStaked sender newUnique
          stakers :=
            if newUnique = 1 then c1.farm.stakers ++ [sender]
            else c1.farm.stakers }
      .ok { c1 with farm := farm1 }
  else .error .revert

/-- Modelled from the spec: unStakeTokens — the farm returns the caller's full
recorded balance of the token, zeroes that balance and decrements the
caller's unique-token count — the behaviour the test assertions encode. -/
def unStakeTokens (c : Chain) (token sender : Address) : Except VMError Chain :=
  let bal := c.farm.stakingBalance token sender
  match erc20transfer c token farmAddr sender bal with
  | .error e => .error e
  | .ok c1 =>
    let farm1 : TokenFarm :=
      { c1.farm with
        stakingBalance := updFn2 c1.farm.stakingBalance token sender 0
        uniqueTokensStaked :=
          updFn c1.farm.uniqueTokensStaked sender
            (c1.farm.uniqueTokensStaked sender - 1) }
    .ok { c1 with farm := farm1 }

/-- Modelled from the spec: getTokenValue — reads the token's price feed and
returns (latest answer, decimals); fails when no feed is mapped. -/
def getTokenValue (c : Chain) (token : Address) : Except VMError (Nat × Nat) :=
  match c.farm.tokenPriceFeedMapping token with
  | none => .error .revert
  | some feed => .ok (c.feeds feed)

/-- Modelled from the spec: getUserSingleTokenValue — the user's staked
balance of the token valued at the feed price, in exact integer arithmetic:
stakingBalance * price / 10 ^ decimals. -/
def getUserSingleTokenValue (c : Chain) (user token : Address) :
    Except VMError Nat :=
  match getTokenValue c token with
  | .error e => .error e
  | .ok (price, dec) =>
    .ok (c.farm.stakingBalance token user * price / 10 ^ dec)

/-- Modelled from the spec: getUserTotalValue — the sum of the user's
single-token values over the allowed tokens. -/
def getUserTotalValue (c : Chain) (user : Address) : Except VMError Nat :=
  c.farm.allowedTokens.foldlM
    (fun acc t =>
      match getUserSingleTokenValue c user t with
      | .error e => .error e
      | .ok v => .ok (acc + v))
    0

/-- Modelled from the spec: issueTokens — for each registered staker the farm
transfers that staker's total staked value, denominated in dapp tokens, from
the farm's own dapp-token holdings. -/
def issueTokens (c : Chain) (_sender : Address) : Except VMError Chain :=
  c.farm.stakers.foldlM
    (fun st staker =>
      match getUserTotalValue st staker with
      | .error e => .error e
      | .ok v => erc20transfer st st.farm.dappToken farmAddr staker v)
    c

/-- The recorded staking balance after a fallible call, when it succeeded. -/
def stakingBalanceAfter (r : Except VMError Chain) (token user : Address) :
    Option Nat :=
  match r with
  | .error _ => none
  | .ok c => some (c.farm.stakingBalance token user)

/-- The ERC-20 balance of an account after a fallible call, when it
succeeded. -/
def balanceOfAfter (r : Except VMError Chain) (token user : Address) :
    Option Nat :=
  match r with
  | .error _ => none
  | .ok c => some ((c.tokens token).balanceOf user)

/-- The unique-tokens-staked count after a fallible call, when it
succeeded. -/
def uniqueStakedAfter (r : Except VMError Chain) (user : Address) :
    Option Nat :=
  match r with
  | .error _ => none
  | .ok c => some (c.farm.uniqueTokensStaked user)

/-- The stakers list after a fallible call, when it succeeded. -/
def stakersAfter (r : Except VMError Chain) : Option (List Address) :=
  match r with
  | .error _ => none
  | .ok c => some c.farm.stakers

/-- The contract methods the scripts invoke, by name, on deployed contracts
(the token farm, the dapp token and the random ERC-20). -/
inductive Method where
  | addAllowedTokens
  | setPriceFeedContract
  | stakeTokens
  | unStakeTokens
  | issueTokens
  | getUserTotalValue
  | getTokenValue
  | getUserSingleTokenValue
  | allowedTokens
  | tokenPriceFeedMapping
  | stakingBalance
  | uniqueTokensStaked
  | stakers
  | approve
  | balanceOf
  deriving DecidableEq, Repr

/-- One statement-level step of a script function, transliterated from the
Python source.  Transaction calls carry the index of the sending account
(get_account() is index 0, get_account(index=1) is index 1); view calls
carry no sender.  The constructors writeGlobal (a module-level state write)
and retry (re-issuing a failed call) exist so that their absence from every
script is a statable property; no script uses them. -/
inductive Step where
  | skipGuard
  | getAccount (index : Option Nat)
  | deploy
  | getContractRef
  | call (m : Method) (sender : Option Nat)
  | assertEq
  | expectRevert (m : Method) (sender : Option Nat)
  | pyCall
  | printValue
  | writeGlobal
  | retry (m : Method) (sender : Option Nat)
  deriving DecidableEq, Repr

/-- tests/unit/test_token_farm.py, test_add_allowed_tokens (lines 14-26). -/
def test_add_allowed_tokens_steps : List Step :=
  [Step.skipGuard,
   Step.getAccount none,
   Step.getAccount (some 1),
   Step.deploy,
   Step.call Method.addAllowedTokens (some 0),
   Step.call Method.allowedTokens none,
   Step.assertEq,
   Step.expectRevert Method.addAllowedTokens (some 1)]

/-- tests/unit/test_token_farm.py, test_set_price_feed_contract
(lines 29-48). -/
def test_set_price_feed_contract_steps : List Step :=
  [Step.skipGuard,
   Step.getAccount none,
   Step.getAccount (some 1),
   Step.deploy,
   Step.getContractRef,
   Step.call Method.setPriceFeedContract (some 0),
   Step.call Method.tokenPriceFeedMapping none,
   Step.assertEq,
   Step.expectRevert Method.setPriceFeedContract (some 1)]

/-- tests/unit/test_token_farm.py, test_stake_tokens (lines 51-69); the final
return of the contract handles is a transient local, not a step. -/
def test_stake_tokens_steps : List Step :=
  [Step.skipGuard,
   Step.getAccount none,
   Step.deploy,
   Step.call Method.approve (some 0),
   Step.call Method.stakeTokens (some 0),
   Step.call Method.stakingBalance none,
   Step.printValue,
   Step.call Method.stakingBalance none,
   Step.assertEq,
   Step.call Method.uniqueTokensStaked none,
   Step.assertEq,
   Step.call Method.stakers none,
   Step.assertEq]

/-- tests/unit/test_token_farm.py, test_stake_unapproved_tokens
(lines 72-82). -/
def test_stake_unapproved_tokens_steps : List Step :=
  [Step.skipGuard,
   Step.getAccount none,
   Step.deploy,
   Step.call Method.approve (some 0),
   Step.expectRevert Method.stakeTokens (some 0)]

/-- tests/unit/test_token_farm.py, test_unstake_tokens (lines 85-96); the
call of test_stake_tokens is a helper-function call. -/
def test_unstake_tokens_steps : List Step :=
  [Step.skipGuard,
   Step.getAccount none,
   Step.pyCall,
   Step.call Method.unStakeTokens (some 0),
   Step.call Method.balanceOf none,
   Step.assertEq,
   Step.call Method.stakingBalance none,
   Step.assertEq,
   Step.call Method.uniqueTokensStaked none,
   Step.assertEq]

/-- tests/unit/test_token_farm.py,
test_get_user_total_balance_with_different_tokens_and_amounts
(lines 99-123). -/
def test_get_user_total_balance_steps : List Step :=
  [Step.skipGuard,
   Step.getAccount none,
   Step.pyCall,
   Step.call Method.addAllowedTokens (some 0),
   Step.getContractRef,
   Step.call Method.setPriceFeedContract (some 0),
   Step.call Method.approve (some 0),
   Step.call Method.stakeTokens (some 0),
   Step.call Method.getUserTotalValue none,
   Step.assertEq]

/-- tests/unit/test_token_farm.py, test_get_token_value (lines 127-136). -/
def test_get_token_value_steps : List Step :=
  [Step.skipGuard,
   Step.deploy,
   Step.call Method.getTokenValue none,
   Step.assertEq]

/-- tests/unit/test_token_farm.py, test_get_user_single_token_value
(lines 139-152). -/
def test_get_user_single_token_value_steps : List Step :=
  [Step.skipGuard,
   Step.getAccount none,
   Step.deploy,
   Step.call Method.approve (some 0),
   Step.call Method.stakeTokens (some 0),
   Step.call Method.getUserSingleTokenValue none,
   Step.assertEq]

/-- tests/unit/test_token_farm.py, test_issue_tokens (lines 155-171). -/
def test_issue_tokens_steps : List Step :=
  [Step.skipGuard,
   Step.getAccount none,
   Step.pyCall,
   Step.call Method.balanceOf none,
   Step.call Method.issueTokens (some 0),
   Step.call Method.balanceOf none,
   Step.assertEq]

/-- scripts/issue_tokens.py, issue_tokens (lines 5-8): the account lookup,
the TokenFarm[-1] contract lookup, and the issueTokens transaction. -/
def issue_tokens_steps : List Step :=
  [Step.getAccount none,
   Step.getContractRef,
   Step.call Method.issueTokens (some 0)]

/-- scripts/issue_tokens.py, main (lines 11-12): a single helper-function
call of issue_tokens. -/
def main_steps : List Step :=
  [Step.pyCall]

/-- The nine test functions of tests/unit/test_token_farm.py, in source
order. -/
def testPrograms : List (List Step) :=
  [test_add_allowed_tokens_steps,
   test_set_price_feed_contract_steps,
   test_stake_tokens_steps,
   test_stake_unapproved_tokens_steps,
   test_unstake_tokens_steps,
   test_get_user_total_balance_steps,
   test_get_token_value_steps,
   test_get_user_single_token_value_steps,
   test_issue_tokens_steps]

/-- Every function of the two provided script files: the nine tests plus
issue_tokens and main. -/
def allPrograms : List (List Step) :=
  testPrograms ++ [issue_tokens_steps, main_steps]

/-- The contract methods a step invokes. -/
def stepMethods : Step → List Method
  | Step.call m _ => [m]
  | Step.expectRevert m _ => [m]
  | Step.retry m _ => [m]
  | _ => []

/-- All contract methods a script function invokes. -/
def collectMethods (p : List Step) : List Method :=
  p.flatMap stepMethods

/-- The contract method surface named in section 6 of the spec. -/
def specSurface : List Method :=
  [Method.addAllowedTokens, Method.setPriceFeedContract, Method.stakeTokens,
   Method.unStakeTokens, Method.issueTokens, Method.getUserTotalValue,
   Method.getTokenValue, Method.getUserSingleTokenValue]

/-- The surface of section 6 extended with the public view accessors of the
farm's state and the ERC-20 methods the scripts also call. -/
def extendedSurface : List Method :=
  specSurface ++
  [Method.allowedTokens, Method.tokenPriceFeedMapping, Method.stakingBalance,
   Method.uniqueTokensStaked, Method.stakers, Method.approve, Method.balanceOf]

/-- Whether a script function's final step asserts on an outcome (a plain
assertion or a pytest.raises check). -/
def endsWithAssertion (p : List Step) : Bool :=
  match p.getLast? with
  | some Step.assertEq => true
  | some (Step.expectRevert _ _) => true
  | _ => false

/-- Whether a step is an account selection, a contract interaction, an
assertion, or one of the two control forms the tests use (the local-network
guard and the debug print) — i.e. not a module-state write and not a
retry. -/
def linearStep : Step → Bool
  | Step.writeGlobal => false
  | Step.retry _ _ => false
  | _ => true

/-- Whether a step touches the chain: an account lookup, a deployment, a
contract reference lookup, a contract call (direct, reverting or retried),
or a helper call that may do any of these. -/
def touchesChain : Step → Bool
  | Step.getAccount _ => true
  | Step.deploy => true
  | Step.getContractRef => true
  | Step.call _ _ => true
  | Step.expectRevert _ _ => true
  | Step.retry _ _ => true
  | Step.pyCall => true
  | _ => false

/-- The steps a function executes when the active network is not a local
blockchain environment: pytest.skip raises at the guard, aborting the rest
of the function. -/
def stepsRunOnNonLocal : List Step → List Step
  | [] => []
  | Step.skipGuard :: _ => []
  | s :: rest => s :: stepsRunOnNonLocal rest

/-- Whether a method is owner-only on the farm (addAllowedTokens and
setPriceFeedContract). -/
def ownerOnlyMethod : Method → Bool
  | Method.addAllowedTokens => true
  | Method.setPriceFeedContract => true
  | _ => false

/-- Whether a step invokes an owner-only method from a non-owner account
without wrapping it in a pytest.raises check. -/
def bareNonOwnerAdminCall : Step → Bool
  | Step.call m (some i) => ownerOnlyMethod m && i != 0
  | Step.retry m (some i) => ownerOnlyMethod m && i != 0
  | _ => false

/-- Whether a step is a pytest.raises-wrapped owner-only call from a
non-owner account. -/
def guardedNonOwnerAdminCall : Step → Bool
  | Step.expectRevert m (some i) => ownerOnlyMethod m && i != 0
  | _ => false

/-- Whether a script function handles owner-only misuse by only checking the
failure signal: it never issues a bare or retried non-owner owner-only call,
and any pytest.raises-guarded one is its final statement, so nothing runs
after the failure check. -/
def noRecoveryFromAdminFailure (p : List Step) : Bool :=
  p.all (fun s => !bareNonOwnerAdminCall s) &&
  p.dropLast.all (fun s => !guardedNonOwnerAdminCall s)

/-- The staking scenario of test_stake_tokens on the deployed chain: the
deployer approves the farm for amount dapp tokens and stakes them. -/
def stakeScenario (amount : Nat) : Except VMError Chain :=
  stakeTokens (approve deployedChain dappTokenAddr ownerAddr farmAddr amount)
    amount dappTokenAddr ownerAddr

/-- The unstaking scenario of test_unstake_tokens: stake, then unstake the
dapp token. -/
def unstakeScenario (amount : Nat) : Except VMError Chain :=
  (stakeScenario amount).bind fun c => unStakeTokens c dappTokenAddr ownerAddr

/-- The deployer's dapp-token balance right after the stake of
test_issue_tokens (its starting_balance read). -/
def startingBalanceScenario : Option Nat :=
  match stakeScenario (10 ^ 18) with
  | .error _ => none
  | .ok c => some ((c.tokens dappTokenAddr).balanceOf ownerAddr)

/-- The deployer's dapp-token balance after the issueTokens call of
test_issue_tokens: stake 1 ether of dapp token, then issue rewards. -/
def issueScenario : Option Nat :=
  match stakeScenario (10 ^ 18) with
  | .error _ => none
  | .ok c1 =>
    match issueTokens c1 ownerAddr with
    | .error _ => none
    | .ok c2 => some ((c2.tokens dappTokenAddr).balanceOf ownerAddr)

/-- The two-token valuation scenario of
test_get_user_total_balance_with_different_tokens_and_amounts: stake 1 ether
of dapp token, allow the random ERC-20, give it the same price feed, stake
2 ether of it, and read getUserTotalValue. -/
def totalValueScenario : Option Nat :=
  match stakeScenario (10 ^ 18) with
  | .error _ => none
  | .ok c1 =>
    match addAllowedTokens c1 randomTokenAddr ownerAddr with
    | .error _ => none
    | .ok c2 =>
      match setPriceFeedContract c2 randomTokenAddr ethUsdFeedAddr ownerAddr with
      | .error _ => none
      | .ok c3 =>
        let c4 := approve c3 randomTokenAddr ownerAddr farmAddr (2 * 10 ^ 18)
        match stakeTokens c4 (2 * 10 ^ 18) randomTokenAddr ownerAddr with
        | .error _ => none
        | .ok c5 =>
          match getUserTotalValue c5 ownerAddr with
          | .error _ => none
          | .ok v => some v

/-- C1: staking an approved (allowed) token with sufficient prior approval
and balance succeeds and records the staker's staking balance for that token
as exactly the staked amount. -/
theorem stakeTokens_records_staked_amount (c : Chain) (amount : Nat)
    (token sender : Address)
    (hAllowed : tokenIsAllowed c.farm token = true)
    (hAllow : amount ≤ (c.tokens token).allowance sender farmAddr)
    (hBal : amount ≤ (c.tokens token).balanceOf sender) :
    stakingBalanceAfter (stakeTokens c amount token sender) token sender =
      some amount := by
  simp [stakeTokens, erc20transferFrom, hAllowed, hAllow, hBal,
    stakingBalanceAfter, updFn2, updFn]

/-- Witness for C1: on the freshly deployed chain, after approving the farm,
staking one ether of dapp token records a staking balance of one ether. -/
theorem stakeTokens_records_staked_amount_witness :
    stakingBalanceAfter
      (stakeTokens (approve deployedChain dappTokenAddr ownerAddr farmAddr (10 ^ 18))
        (10 ^ 18) dappTokenAddr ownerAddr)
      dappTokenAddr ownerAddr = some (10 ^ 18) :=
  stakeTokens_records_staked_amount _ _ _ _ (by decide) (by decide) (by decide)

/-- C2: owner-only operations invoked by a non-owner fail with the generic
failure signal (addAllowedTokens and setPriceFeedContract revert for every
non-owner sender on every chain state), and every script function handles
this failure only by checking for its presence: no bare or retried non-owner
owner-only call exists, and a pytest.raises-guarded one is always the
function's final statement. -/
theorem nonOwner_admin_calls_revert_and_only_checked :
    (∀ c : Chain, ∀ token sender : Address, sender ≠ c.farm.owner →
      addAllowedTokens c token sender = Except.error VMError.revert) ∧
    (∀ c : Chain, ∀ token feed sender : Address, sender ≠ c.farm.owner →
      setPriceFeedContract c token feed sender = Except.error VMError.revert) ∧
    (∀ p ∈ allPrograms, noRecoveryFromAdminFailure p = true) := by
  refine ⟨?_, ?_, by decide⟩
  · intro c token sender h
    simp [addAllowedTokens, h]
  · intro c token feed sender h
    simp [setPriceFeedContract, h]

/-- Witness for C2: the second test account is not the owner of the deployed
farm and its addAllowedTokens call reverts. -/
theorem nonOwner_admin_calls_revert_witness :
    nonOwnerAddr ≠ deployedChain.farm.owner ∧
    addAllowedTokens deployedChain dappTokenAddr nonOwnerAddr =
      Except.error VMError.revert :=
  ⟨by decide,
   nonOwner_admin_calls_revert_and_only_checked.1 deployedChain dappTokenAddr
     nonOwnerAddr (by decide)⟩

/-- C3: staking a token that is not on the allowed list fails with the
generic failure signal, even when the caller has first approved the farm for
the staked amount. -/
theorem stake_unapproved_token_reverts (c : Chain) (amount : Nat)
    (token sender : Address)
    (hNot : tokenIsAllowed c.farm token = false) :
    stakeTokens (approve c token sender farmAddr amount) amount token sender =
      Except.error VMError.revert := by
  simp [stakeTokens, approve, hNot]

/-- Witness for C3: the random ERC-20 is not allowed on the deployed farm,
and staking one ether of it reverts even after approval. -/
theorem stake_unapproved_token_reverts_witness :
    tokenIsAllowed deployedChain.farm randomTokenAddr = false ∧
    stakeTokens (approve deployedChain randomTokenAddr ownerAddr farmAddr (10 ^ 18))
      (10 ^ 18) randomTokenAddr ownerAddr = Except.error VMError.revert :=
  ⟨by decide,
   stake_unapproved_token_reverts deployedChain (10 ^ 18) randomTokenAddr
     ownerAddr (by decide)⟩

/-- C4 counterexample: the claim that every invoked contract method belongs
to the section-6 surface is false — test_stake_tokens calls the ERC-20
method approve on the dapp token, and approve is not in that surface. -/
theorem method_surface_counterexample :
    Method.approve ∈ collectMethods test_stake_tokens_steps ∧
    Method.approve ∉ specSurface := by
  decide

/-- C4 (amended): every contract method invoked by any script or test
function belongs to the section-6 surface extended with the farm's public
view accessors (allowedTokens, tokenPriceFeedMapping, stakingBalance,
uniqueTokensStaked, stakers) and the ERC-20 methods approve and balanceOf. -/
theorem scripts_call_only_extended_surface :
    (allPrograms.all fun p =>
      (collectMethods p).all fun m => extendedSurface.contains m) = true := by
  decide

/-- C5 counterexample: the claim that every script function ends by asserting
on the outcome of its contract call is false — issue_tokens ends with the
bare issueTokens transaction and performs no assertion. -/
theorem issue_tokens_no_final_assertion :
    issue_tokens_steps ∈ allPrograms ∧
    endsWithAssertion issue_tokens_steps = false := by
  decide

/-- C5 (amended): every script function is a linear (branch- and loop-free)
sequence of account-selection, contract-interaction and assertion steps
(plus the local-network guard, a debug print and helper-function calls), and
every test function ends by asserting on an outcome; the entry points
issue_tokens and main contain no assertion at all. -/
theorem scripts_linear_and_tests_end_with_assertion :
    ((allPrograms.all fun p => p.all linearStep) &&
     (testPrograms.all fun p => endsWithAssertion p) &&
     (!endsWithAssertion issue_tokens_steps) &&
     (!endsWithAssertion main_steps)) = true := by
  decide

/-- C6: no script function writes any module-level state: the transliterated
step lists contain no module-state write, so the only reads and writes of
farm or token state are the remote contract interactions. -/
theorem no_module_level_state_writes :
    (allPrograms.all fun p => p.all fun s => !(s == Step.writeGlobal)) = true := by
  decide

/-- C7: every test function starts with the local-network guard, and on a
non-local network the guard's pytest.skip aborts the function before any
account lookup, deployment, contract-reference lookup or contract call, so
the non-local run performs no chain action at all. -/
theorem tests_guard_first_and_nonlocal_runs_touch_no_chain :
    (testPrograms.all fun p =>
      (p.head? == some Step.skipGuard) &&
      ((stepsRunOnNonLocal p).filter touchesChain).isEmpty) = true := by
  decide

/-- C9: reward issuance is value-proportional in exact integer arithmetic.
On the deployed chain, after staking 1 ether of dapp token (a position worth
INITIAL_PRICE_FEED_VALUE at the mock feed price), the deployer's starting
balance is the kept 100 ether minus the stake, one issueTokens call raises
it by exactly INITIAL_PRICE_FEED_VALUE, and in the two-token scenario (1x
dapp token plus 2x random ERC-20 at the same feed price) getUserTotalValue
is exactly INITIAL_PRICE_FEED_VALUE * 3. -/
theorem issuance_is_value_proportional :
    startingBalanceScenario = some (KEPT_BALANCE - 10 ^ 18) ∧
    issueScenario = some (KEPT_BALANCE - 10 ^ 18 + INITIAL_PRICE_FEED_VALUE) ∧
    totalValueScenario = some (INITIAL_PRICE_FEED_VALUE * 3) := by
  refine ⟨by decide, by decide, by decide⟩

/-- C8: unstaking fully reverses a stake.  For any staked amount up to the
deployer's full initial holding of Web3.toWei(100, ether), after staking it
and calling unStakeTokens on the dapp token, the deployer's dapp-token
balance is restored to the full initial holding, the recorded staking
balance is 0 and the unique-tokens-staked count is 0. -/
theorem unstake_restores_balance_and_clears_stake (amount : Nat)
    (h : amount ≤ KEPT_BALANCE) :
    balanceOfAfter (unstakeScenario amount) dappTokenAddr ownerAddr =
      some KEPT_BALANCE ∧
    stakingBalanceAfter (unstakeScenario amount) dappTokenAddr ownerAddr =
      some 0 ∧
    uniqueStakedAfter (unstakeScenario amount) ownerAddr = some 0 := by
  have h' : amount ≤ 100000000000000000000 := by simpa [KEPT_BALANCE] using h
  simp [unstakeScenario, stakeScenario, stakeTokens, unStakeTokens, approve,
    erc20transfer, erc20transferFrom, deployedChain, tokenIsAllowed,
    updFn2, updFn, moveBalance, balanceOfAfter, stakingBalanceAfter,
    uniqueStakedAfter, ownerAddr, farmAddr, dappTokenAddr, randomTokenAddr,
    ethUsdFeedAddr, KEPT_BALANCE, initialSupply, zeroErc20, h',
    Nat.le_add_left, Except.bind]

/-- Witness for C8: staking and unstaking 1 ether of dapp token restores the
deployer's balance to 100 ether and clears the staking records. -/
theorem unstake_restores_balance_witness :
    (10 : Nat) ^ 18 ≤ KEPT_BALANCE ∧
    balanceOfAfter (unstakeScenario (10 ^ 18)) dappTokenAddr ownerAddr =
      some KEPT_BALANCE :=
  ⟨by decide, (unstake_restores_balance_and_clears_stake (10 ^ 18) (by decide)).1⟩

/-- C10: first-stake registration invariant.  When an account with no prior
stakes (zero recorded balance, zero unique-token count, empty stakers list)
stakes an allowed token it has approved and can cover, the farm registers it:
the stakers list becomes exactly that account (so stakers(0) is its address)
and its unique-token count becomes 1; and unstaking that only position
returns the count to 0. -/
theorem first_stake_registers_staker (c : Chain) (amount : Nat)
    (token sender : Address)
    (hAllowed : tokenIsAllowed c.farm token = true)
    (hAllow : amount ≤ (c.tokens token).allowance sender farmAddr)
    (hBal : amount ≤ (c.tokens token).balanceOf sender)
    (hFresh : c.farm.stakingBalance token sender = 0)
    (hUnique : c.farm.uniqueTokensStaked sender = 0)
    (hStakers : c.farm.stakers = [])
    (hNe : sender ≠ farmAddr) :
    stakersAfter (stakeTokens c amount token sender) = some [sender] ∧
    uniqueStakedAfter (stakeTokens c amount token sender) sender = some 1 ∧
    uniqueStakedAfter ((stakeTokens c amount token sender).bind
      fun c1 => unStakeTokens c1 token sender) sender = some 0 := by
  have hNe2 : farmAddr ≠ sender := fun e => hNe e.symm
  have hMem : token ∈ c.farm.allowedTokens := by
    simpa [tokenIsAllowed] using hAllowed
  simp [stakeTokens, unStakeTokens, erc20transfer, erc20transferFrom,
    tokenIsAllowed, updFn2, updFn, moveBalance, stakersAfter,
    uniqueStakedAfter, hMem, hAllow, hBal, hFresh, hUnique, hStakers,
    hNe, hNe2, Nat.le_add_left, Except.bind]

/-- Witness for C10: on the freshly deployed chain, the deployer's first
stake of 1 ether of dapp token makes it the sole registered staker. -/
theorem first_stake_registers_staker_witness :
    (approve deployedChain dappTokenAddr ownerAddr farmAddr (10 ^ 18)).farm.stakers
      = [] ∧
    stakersAfter
      (stakeTokens (approve deployedChain dappTokenAddr ownerAddr farmAddr (10 ^ 18))
        (10 ^ 18) dappTokenAddr ownerAddr) = some [ownerAddr] :=
  ⟨by decide,
   (first_stake_registers_staker
      (approve deployedChain dappTokenAddr ownerAddr farmAddr (10 ^ 18))
      (10 ^ 18) dappTokenAddr ownerAddr (by decide) (by decide) (by decide)
      (by decide) (by decide) (by decide) (by decide)).1⟩
